import Mathlib

/-!
Verification of the voice-bot call-orchestration service: a shallow embedding
of `app.py`, `rasa_handler.py`, `twilio_handler.py` and `sarvam_tts.py`.

HTTP interactions are modelled by passing the external server's behaviour as a
function from the request payload the code builds to an abstract outcome
(timeout / exception / a response with status and parsed body).  Python dict
operations on the session map are modelled on an association list with the
same semantics (assignment replaces in place or appends; `del` removes the
key).  Constant request fields that no claim touches (Gather's fixed
`input='speech'`, `timeout=5`, `speech_timeout='auto'`; the TTS payload's
float constants `pitch`, `pace`, `loudness` and fixed `sample_rate`/`model`)
are elided from the embedded records.
-/

namespace VoiceBot

/-- A call session, the value stored in `call_sessions` (app.py line 48):
`{'from_number': ..., 'language': ..., 'conversation_history': []}`.
History pairs model the `{'user': ..., 'bot': ...}` dicts appended per turn. -/
structure Session where
  from_number : String
  language : String
  conversation_history : List (String × String)
deriving Repr, DecidableEq

/-- The module-level `call_sessions` dict, as an association list. -/
abbrev Sessions := List (String × Session)

/-- Python `call_sessions.get(k)` / `k in call_sessions` lookup. -/
def dictLookup : Sessions → String → Option Session
  | [], _ => none
  | (k2, v) :: rest, k => if k2 = k then some v else dictLookup rest k

/-- Python dict assignment `call_sessions[k] = v`: replaces the value of an
existing key in place, otherwise appends the new binding. -/
def dictSet : Sessions → String → Session → Sessions
  | [], k, v => [(k, v)]
  | (k2, v2) :: rest, k, v =>
      if k2 = k then (k2, v) :: rest else (k2, v2) :: dictSet rest k v

/-- Python `del call_sessions[k]`. -/
def dictDel : Sessions → String → Sessions
  | [], _ => []
  | (k2, v2) :: rest, k => if k2 = k then dictDel rest k else (k2, v2) :: dictDel rest k

/-- Python truthiness of an optional string (`if not self.api_key`,
`voice or default`): `None` and the empty string are falsy. -/
def pyTruthy : Option String → Bool
  | none => false
  | some s => !(s == "")

/-! ## RasaHandler (rasa_handler.py) -/

/-- `self.greetings.get(language, self.greetings['en'])`
(rasa_handler.py lines 18-23, 29). -/
def greetings_get (language : String) : String :=
  if language = "hi" then "नमस्ते! मैं आपकी सहायता के लिए यहाँ हूँ। मैं आपकी कैसे मदद कर सकता हूँ?"
  else if language = "te" then "నమస్కారం! నేను మీకు సహాయం చేయడానికి ఇక్కడ ఉన్నాను. నేను మీకు ఎలా సహాయం చేయగలను?"
  else if language = "en" then "Hello! I am here to assist you. How may I help you today?"
  else if language = "ur" then "السلام علیکم! میں آپ کی مدد کے لیے یہاں موجود ہوں۔ میں آپ کی کیسے مدد کر سکتا ہوں؟"
  else "Hello! I am here to assist you. How may I help you today?"

/-- `RasaHandler.get_initial_greeting` (sender id is only logged). -/
def get_initial_greeting (sender_id language : String) : String :=
  greetings_get language

/-- `RasaHandler._get_fallback_response`:
`fallback_messages.get(language, fallback_messages['en'])`. -/
def fallback_messages_get (language : String) : String :=
  if language = "hi" then "क्षमा करें, मैं आपकी बात समझ नहीं पाया। क्या आप कृपया दोहरा सकते हैं?"
  else if language = "te" then "క్షమించండి, నేను మీ మాట అర్థం చేసుకోలేకపోయాను. దయచేసి మళ్లీ చెప్పగలరా?"
  else if language = "en" then "Sorry, I did not understand that. Could you please repeat?"
  else if language = "ur" then "معذرت، میں آپ کی بات سمجھ نہیں پایا۔ کیا آپ براہ کرم دہرا سکتے ہیں؟"
  else "Sorry, I did not understand that. Could you please repeat?"

/-- One element of the JSON list Rasa returns; `text : none` models a
fragment with no `'text'` key. -/
structure Fragment where
  text : Option String
deriving Repr, DecidableEq

/-- The JSON payload `send_message` POSTs to the Rasa webhook:
`{'sender': ..., 'message': ..., 'metadata': {'language': ...,
'conversation_history': ...}}`. -/
structure RasaPayload where
  sender : String
  message : String
  metadata_language : String
  metadata_history : List (String × String)
deriving Repr, DecidableEq

/-- Abstract outcome of the HTTP POST to Rasa: timeout
(`requests.exceptions.Timeout`), any other exception, or a response with a
status code and parsed JSON body. -/
inductive RasaOutcome
  | timeout
  | exn
  | response (status : Nat) (body : List Fragment)
deriving Repr, DecidableEq

/-- The response handling of `RasaHandler.send_message` (lines 67-87): on a
200 status with a non-empty list, `' '.join([r.get('text','') for r in
responses if 'text' in r])`; on an empty list, a non-200 status, timeout or
any exception, the localized fallback. -/
def handle_rasa_outcome (outcome : RasaOutcome) (language : String) : String :=
  match outcome with
  | .timeout => fallback_messages_get language
  | .exn => fallback_messages_get language
  | .response status responses =>
      if status = 200 then
        if responses = [] then fallback_messages_get language
        else String.intercalate " " (responses.filterMap Fragment.text)
      else fallback_messages_get language

/-- `RasaHandler.send_message`, with the Rasa server abstracted as a function
from the posted payload to the HTTP outcome. -/
def send_message (server : RasaPayload → RasaOutcome)
    (sender_id message language : String)
    (conversation_history : List (String × String)) : String :=
  handle_rasa_outcome
    (server ⟨sender_id, message, language, conversation_history⟩) language

/-- `RasaHandler.check_health`: status 200 means healthy; any exception
(modelled as `none`) means unhealthy. -/
def check_health (outcome : Option Nat) : Bool :=
  match outcome with
  | none => false
  | some status => status == 200

/-! ## SarvamTTS (sarvam_tts.py) -/

/-- The configuration read from the environment in `SarvamTTS.__init__`. -/
structure TTSConfig where
  api_key : Option String
  default_voice : String
deriving Repr, DecidableEq

/-- The (non-constant part of the) JSON payload `generate_speech` POSTs:
`{'text': ..., 'language_code': ..., 'speaker': ..., ...}`. -/
structure TTSRequest where
  text : String
  language_code : String
  speaker : String
deriving Repr, DecidableEq

/-- Abstract outcome of the HTTP POST to Sarvam: timeout, other exception, or
a response with a status code and optional `audio` / `audio_url` fields in
its JSON body. -/
inductive TTSOutcome
  | timeout
  | exn
  | response (status : Nat) (audio : Option String) (audio_url : Option String)
deriving Repr, DecidableEq

/-- `SarvamTTS._get_sarvam_language_code`: note the default is `'hi-IN'`. -/
def get_sarvam_language_code (language : String) : String :=
  if language = "hi" then "hi-IN"
  else if language = "te" then "te-IN"
  else if language = "en" then "en-IN"
  else if language = "ur" then "ur-PK"
  else "hi-IN"

/-- `SarvamTTS._get_voice_for_language`: every supported tag maps to
`'meera'`; the default is `self.default_voice`. -/
def get_voice_for_language (default_voice language : String) : String :=
  if language = "hi" then "meera"
  else if language = "te" then "meera"
  else if language = "en" then "meera"
  else if language = "ur" then "meera"
  else default_voice

/-- `SarvamTTS.generate_speech` (lines 23-95).  `save` models
`_save_audio_temporarily` (which returns a URL, or `None` on failure);
`server` models the Sarvam HTTP endpoint.  Returns the audio URL, or `none`
on missing/empty credentials, timeout, exception, non-200 status, or a body
with neither `audio` nor `audio_url`. -/
def generate_speech (cfg : TTSConfig) (save : String → Option String)
    (server : TTSRequest → TTSOutcome)
    (text language : String) (voice : Option String) : Option String :=
  if !(pyTruthy cfg.api_key) then none
  else
    let selected_voice :=
      if pyTruthy voice then voice.getD "" else get_voice_for_language cfg.default_voice language
    match server ⟨text, get_sarvam_language_code language, selected_voice⟩ with
    | .timeout => none
    | .exn => none
    | .response status audio audio_url =>
        if status = 200 then
          match audio with
          | some audio_data => save audio_data
          | none =>
              match audio_url with
              | some u => some u
              | none => none
        else none

/-! ## TwilioHandler (twilio_handler.py) -/

/-- One TwiML verb of the generated `VoiceResponse` document.  `gather`
keeps the varying attributes (action URL, recognition language, hints);
`say` keeps the message and its `language` attribute. -/
inductive TwiMLVerb
  | play (url : String)
  | say (message : String) (language : String)
  | gather (action : String) (language : String) (hints : String)
  | redirect (url : String)
  | hangup
deriving Repr, DecidableEq

/-- `TwilioHandler._get_twilio_language`: note the default is `'en-IN'`. -/
def get_twilio_language (language : String) : String :=
  if language = "hi" then "hi-IN"
  else if language = "te" then "te-IN"
  else if language = "en" then "en-IN"
  else if language = "ur" then "ur-PK"
  else "en-IN"

/-- `TwilioHandler._get_speech_hints`: note the default is `''`. -/
def get_speech_hints (language : String) : String :=
  if language = "hi" then "हाँ, नहीं, ठीक है, धन्यवाद"
  else if language = "te" then "అవును, కాదు, సరే, ధన్యవాదాలు"
  else if language = "en" then "yes, no, okay, thank you"
  else if language = "ur" then "ہاں, نہیں, ٹھیک ہے, شکریہ"
  else ""

/-- `TwilioHandler.generate_greeting_response`: play the synthesized audio if
available, else `say` with Twilio's built-in TTS; then gather speech and
redirect to `/voice/process` as the no-input fallback. -/
def generate_greeting_response (cfg : TTSConfig) (save : String → Option String)
    (server : TTSRequest → TTSOutcome) (server_url message language : String) :
    List TwiMLVerb :=
  let audio_url := generate_speech cfg save server message language none
  (match audio_url with
   | some url => [TwiMLVerb.play url]
   | none => [TwiMLVerb.say message (get_twilio_language language)]) ++
  [TwiMLVerb.gather (server_url ++ "/voice/process") (get_twilio_language language)
     (get_speech_hints language),
   TwiMLVerb.redirect (server_url ++ "/voice/process")]

/-- `TwilioHandler.generate_response`: play-or-say the bot message, then
either hang up (`end_call`) or gather-and-redirect for the next turn. -/
def generate_response (cfg : TTSConfig) (save : String → Option String)
    (server : TTSRequest → TTSOutcome) (server_url message language : String)
    (end_call : Bool) : List TwiMLVerb :=
  let audio_url := generate_speech cfg save server message language none
  (match audio_url with
   | some url => [TwiMLVerb.play url]
   | none => [TwiMLVerb.say message (get_twilio_language language)]) ++
  (if end_call then [TwiMLVerb.hangup]
   else
     [TwiMLVerb.gather (server_url ++ "/voice/process") (get_twilio_language language)
        (get_speech_hints language),
      TwiMLVerb.redirect (server_url ++ "/voice/process")])

/-- `TwilioHandler.generate_error_response`:
`error_messages.get(language, error_messages['en'])`, said with built-in TTS,
followed by hangup. -/
def error_messages_get (language : String) : String :=
  if language = "hi" then "क्षमा करें, कुछ गलत हो गया। कृपया बाद में पुनः प्रयास करें।"
  else if language = "te" then "క్షమించండి, ఏదో తప్పు జరిగింది. దయచేసి తర్వాత మళ్లీ ప్రయత్నించండి."
  else if language = "en" then "Sorry, something went wrong. Please try again later."
  else if language = "ur" then "معذرت، کچھ غلط ہو گیا۔ براہ کرم بعد میں دوبارہ کوشش کریں۔"
  else "Sorry, something went wrong. Please try again later."

/-- `TwilioHandler.generate_error_response` (language defaults to `'hi'` at
its call sites in app.py, which pass no argument). -/
def generate_error_response (language : String) : List TwiMLVerb :=
  [TwiMLVerb.say (error_messages_get language) (get_twilio_language language),
   TwiMLVerb.hangup]

/-! ## Flask app (app.py) -/

/-- The fixed collaborators and configuration one request handler sees:
the Rasa and Sarvam server behaviours, the TTS configuration, the audio-save
function, `SERVER_URL`, and `DEFAULT_LANGUAGE`. -/
structure Env where
  rasaServer : RasaPayload → RasaOutcome
  ttsServer : TTSRequest → TTSOutcome
  ttsCfg : TTSConfig
  save : String → Option String
  server_url : String
  default_language : String

/-- `/voice/incoming` (app.py lines 37-66): read `CallSid`, `From` and the
optional `language` (defaulting to `DEFAULT_LANGUAGE`), assign a fresh
session record into `call_sessions`, and answer with the greeting TwiML. -/
def incoming_call (env : Env) (sessions : Sessions)
    (call_sid from_number : String) (form_language : Option String) :
    Sessions × List TwiMLVerb :=
  let language := form_language.getD env.default_language
  let sessions2 := dictSet sessions call_sid ⟨from_number, language, []⟩
  let initial_message := get_initial_greeting call_sid language
  (sessions2,
   generate_greeting_response env.ttsCfg env.save env.ttsServer env.server_url
     initial_message language)

/-- `/voice/process` (app.py lines 69-109): `SpeechResult` defaults to `''`;
an unknown `CallSid` yields `generate_error_response()` (language `'hi'`) and
no state change; otherwise the utterance goes to Rasa with the session's
prior history, the (utterance, reply) pair is appended, and the reply TwiML
is returned. -/
def process_speech (env : Env) (sessions : Sessions)
    (call_sid : String) (speech_result_field : Option String) :
    Sessions × List TwiMLVerb :=
  let speech_result := speech_result_field.getD ""
  match dictLookup sessions call_sid with
  | none => (sessions, generate_error_response "hi")
  | some session =>
      let language := session.language
      let rasa_response :=
        send_message env.rasaServer call_sid speech_result language
          session.conversation_history
      let session2 : Session :=
        ⟨session.from_number, session.language,
         session.conversation_history ++ [(speech_result, rasa_response)]⟩
      (dictSet sessions call_sid session2,
       generate_response env.ttsCfg env.save env.ttsServer env.server_url
         rasa_response language false)

/-- The terminal statuses of `/voice/status` (app.py line 120). -/
def terminal_statuses : List String := ["completed", "failed", "busy", "no-answer"]

/-- `/voice/status` (app.py lines 112-126): on a terminal status, delete the
session if present; otherwise no state change; always answer the JSON
acknowledgment `{'status': 'received'}` with code 200. -/
def call_status (sessions : Sessions) (call_sid status : String) :
    Sessions × (List (String × String) × Nat) :=
  let sessions2 :=
    if status ∈ terminal_statuses then
      if (dictLookup sessions call_sid).isSome then dictDel sessions call_sid
      else sessions
    else sessions
  (sessions2, ([("status", "received")], 200))

/-- A JSON value appearing in the health response (string or boolean). -/
inductive JVal
  | s (v : String)
  | b (v : Bool)
deriving Repr, DecidableEq

/-- `/health` (app.py lines 157-164): `{'status': 'healthy', 'rasa_status':
rasa_handler.check_health(), 'twilio_status': 'connected'}` with code 200;
the Rasa `/status` probe outcome is the parameter. -/
def health (rasa_probe : Option Nat) : List (String × JVal) × Nat :=
  ([("status", JVal.s "healthy"),
    ("rasa_status", JVal.b (check_health rasa_probe)),
    ("twilio_status", JVal.s "connected")], 200)

/-! ## Concrete fixtures for witnesses and counterexamples -/

/-- An environment whose external collaborators all fail (Rasa and Sarvam
time out, saving audio fails), with no Sarvam credentials. -/
def env0 : Env where
  rasaServer := fun _ => RasaOutcome.timeout
  ttsServer := fun _ => TTSOutcome.timeout
  ttsCfg := ⟨none, "meera"⟩
  save := fun _ => none
  server_url := "http://s"
  default_language := "hi"

/-- A TTS configuration with a present API key. -/
def cfg0 : TTSConfig := ⟨some "key", "meera"⟩

/-- A session mid-conversation, used as a concrete store entry. -/
def sess0 : Session := ⟨"+100", "en", [("hello", "Hi there")]⟩

/-- A one-entry session store. -/
def store0 : Sessions := [("CA1", sess0)]

/-! ## Session-store lemmas -/

theorem dictLookup_dictSet_self (s : Sessions) (k : String) (v : Session) :
    dictLookup (dictSet s k v) k = some v := by
  induction s with
  | nil => simp [dictSet, dictLookup]
  | cons hd tl ih =>
      obtain ⟨k2, v2⟩ := hd
      by_cases h : k2 = k
      · simp [dictSet, h, dictLookup]
      · simp [dictSet, h, dictLookup, ih]

theorem dictLookup_dictSet_other (s : Sessions) (k k2 : String) (v : Session)
    (h : k2 ≠ k) : dictLookup (dictSet s k v) k2 = dictLookup s k2 := by
  induction s with
  | nil => simp [dictSet, dictLookup, Ne.symm h]
  | cons hd tl ih =>
      obtain ⟨k3, v3⟩ := hd
      by_cases h3 : k3 = k
      · subst h3
        simp [dictSet, dictLookup, Ne.symm h]
      · simp [dictSet, h3, dictLookup, ih]

theorem dictLookup_dictDel_self (s : Sessions) (k : String) :
    dictLookup (dictDel s k) k = none := by
  induction s with
  | nil => simp [dictDel, dictLookup]
  | cons hd tl ih =>
      obtain ⟨k2, v2⟩ := hd
      by_cases h : k2 = k
      · simp [dictDel, h, ih]
      · simp [dictDel, h, dictLookup, ih]

/-! ## Claim theorems -/

/-- Claim C1, counterexample: with a session already stored for `"CA1"`
(caller `"+100"`, language `"en"`, one history pair), a second call-start
event for `"CA1"` does not fail; it silently replaces the session with a
fresh one (caller `"+200"`, language `"te"`, empty history), so the existing
session's fields are not preserved. -/
theorem C1_counterexample :
    dictLookup (incoming_call env0 store0 "CA1" "+200" (some "te")).1 "CA1" =
      some ⟨"+200", "te", []⟩ ∧
    dictLookup (incoming_call env0 store0 "CA1" "+200" (some "te")).1 "CA1" ≠
      some sess0 := by
  constructor
  · rfl
  · decide

/-- Claim C1, amended: a call-start event unconditionally assigns a fresh
session record for its call id — when the call id is already present, the
stored session is silently overwritten with the new caller number, the new
language (or the default), and an empty history. -/
theorem C1_overwrite (env : Env) (sessions : Sessions)
    (call_sid from_number : String) (form_language : Option String) :
    dictLookup (incoming_call env sessions call_sid from_number form_language).1
        call_sid =
      some ⟨from_number, form_language.getD env.default_language, []⟩ := by
  simp [incoming_call, dictLookup_dictSet_self]

/-- Claim C2: `send_message` is a total function (it never raises), and on a
timeout, on any other exception, on a non-200 status, and on a 200 status
with an empty response list, it returns the localized fallback text for the
given language. -/
theorem C2_fallback (server : RasaPayload → RasaOutcome)
    (sender_id message language : String) (history : List (String × String))
    (h : server ⟨sender_id, message, language, history⟩ = RasaOutcome.timeout ∨
         server ⟨sender_id, message, language, history⟩ = RasaOutcome.exn ∨
         (∃ st body, server ⟨sender_id, message, language, history⟩ =
            RasaOutcome.response st body ∧ st ≠ 200) ∨
         server ⟨sender_id, message, language, history⟩ =
           RasaOutcome.response 200 []) :
    send_message server sender_id message language history =
      fallback_messages_get language := by
  rcases h with h | h | ⟨st, body, h, hst⟩ | h
  · simp [send_message, handle_rasa_outcome, h]
  · simp [send_message, handle_rasa_outcome, h]
  · simp [send_message, handle_rasa_outcome, h, hst]
  · simp [send_message, handle_rasa_outcome, h]

/-- Claim C2, witness: a server answering status 500 yields the English
fallback text. -/
theorem C2_fallback_witness :
    send_message (fun _ => RasaOutcome.response 500 []) "CA1" "hello" "en" [] =
      fallback_messages_get "en" :=
  C2_fallback (fun _ => RasaOutcome.response 500 []) "CA1" "hello" "en" []
    (Or.inr (Or.inr (Or.inl ⟨500, [], rfl, by decide⟩)))

/-- Claim C3: `generate_speech` returns `none` (it never raises) when the
API key is absent, when the provider times out, when the request raises any
other exception, when the provider answers a non-200 status, and when a 200
response carries neither an `audio` nor an `audio_url` field; and whenever
`generate_speech` returns `none` for the message, `generate_response` opens
with a built-in `say` of the message in the mapped locale (no `play` verb)
before the usual gather/redirect or hangup tail. -/
theorem C3_synthesize_fallback :
    (∀ (dv : String) (save : String → Option String)
        (server : TTSRequest → TTSOutcome) (text language : String)
        (voice : Option String),
      generate_speech ⟨none, dv⟩ save server text language voice = none) ∧
    (∀ (cfg : TTSConfig) (save : String → Option String)
        (text language : String) (voice : Option String),
      generate_speech cfg save (fun _ => TTSOutcome.timeout) text language voice =
        none) ∧
    (∀ (cfg : TTSConfig) (save : String → Option String)
        (text language : String) (voice : Option String),
      generate_speech cfg save (fun _ => TTSOutcome.exn) text language voice =
        none) ∧
    (∀ (cfg : TTSConfig) (save : String → Option String) (st : Nat)
        (audio audio_url : Option String) (text language : String)
        (voice : Option String), st ≠ 200 →
      generate_speech cfg save (fun _ => TTSOutcome.response st audio audio_url)
        text language voice = none) ∧
    (∀ (cfg : TTSConfig) (save : String → Option String)
        (text language : String) (voice : Option String),
      generate_speech cfg save (fun _ => TTSOutcome.response 200 none none)
        text language voice = none) ∧
    (∀ (cfg : TTSConfig) (save : String → Option String)
        (server : TTSRequest → TTSOutcome) (server_url message language : String)
        (end_call : Bool),
      generate_speech cfg save server message language none = none →
      generate_response cfg save server server_url message language end_call =
        TwiMLVerb.say message (get_twilio_language language) ::
          (if end_call then [TwiMLVerb.hangup]
           else
             [TwiMLVerb.gather (server_url ++ "/voice/process")
                (get_twilio_language language) (get_speech_hints language),
              TwiMLVerb.redirect (server_url ++ "/voice/process")])) := by
  refine ⟨?_, ?_, ?_, ?_, ?_, ?_⟩
  · intro dv save server text language voice
    simp [generate_speech, pyTruthy]
  · intro cfg save text language voice
    simp [generate_speech]
  · intro cfg save text language voice
    simp [generate_speech]
  · intro cfg save st audio audio_url text language voice hst
    simp [generate_speech, hst]
  · intro cfg save text language voice
    simp [generate_speech]
  · intro cfg save server server_url message language end_call hnone
    simp [generate_response, hnone]

/-- Claim C3, witness: with a 500 response the synthesizer yields `none`, and
with a timing-out provider the greeting-turn markup says the message with
built-in synthesis, gathers, and redirects. -/
theorem C3_synthesize_fallback_witness :
    generate_speech cfg0 (fun _ => none)
        (fun _ => TTSOutcome.response 500 none none) "hello" "en" none = none ∧
    generate_response cfg0 (fun _ => none) (fun _ => TTSOutcome.timeout)
        "http://s" "hello" "en" false =
      TwiMLVerb.say "hello" (get_twilio_language "en") ::
        (if false then [TwiMLVerb.hangup]
         else
           [TwiMLVerb.gather ("http://s" ++ "/voice/process")
              (get_twilio_language "en") (get_speech_hints "en"),
            TwiMLVerb.redirect ("http://s" ++ "/voice/process")]) := by
  constructor
  · exact C3_synthesize_fallback.2.2.2.1 cfg0 (fun _ => none) 500 none none
      "hello" "en" none (by decide)
  · exact C3_synthesize_fallback.2.2.2.2.2 cfg0 (fun _ => none)
      (fun _ => TTSOutcome.timeout) "http://s" "hello" "en" false
      (C3_synthesize_fallback.2.1 cfg0 (fun _ => none) "hello" "en" none)

/-- Claim C4, counterexample: for the unsupported tag `"fr"` the resolved
artifacts do not all come from one single default language — the recognition
locale defaults to English's `"en-IN"` while the synthesis language code
defaults to Hindi's `"hi-IN"`, and the speech hints default to the empty
string, which is no supported language's hints. -/
theorem C4_counterexample :
    get_twilio_language "fr" = "en-IN" ∧
    get_sarvam_language_code "fr" = "hi-IN" ∧
    get_sarvam_language_code "en" = "en-IN" ∧
    get_speech_hints "fr" = "" ∧
    get_speech_hints "en" ≠ "" := by
  refine ⟨rfl, rfl, rfl, rfl, ?_⟩
  decide

/-- Claim C4, amended: resolution never fails, but each artifact falls back
to its own per-artifact default: for any unsupported tag the greeting,
fallback and error texts are English's, the recognition locale is `"en-IN"`,
the synthesis language code is Hindi's `"hi-IN"`, the speech hints are the
empty string, and the voice is the configured default voice; every supported
tag ({hi, te, en, ur}) resolves to its own complete profile with non-empty
text artifacts. -/
theorem C4_resolution (language : String)
    (h : language ∉ (["hi", "te", "en", "ur"] : List String)) :
    (greetings_get language = greetings_get "en" ∧
     fallback_messages_get language = fallback_messages_get "en" ∧
     error_messages_get language = error_messages_get "en" ∧
     get_twilio_language language = "en-IN" ∧
     get_sarvam_language_code language = "hi-IN" ∧
     get_speech_hints language = "" ∧
     ∀ dv, get_voice_for_language dv language = dv) ∧
    (∀ lang ∈ (["hi", "te", "en", "ur"] : List String),
      greetings_get lang ≠ "" ∧ fallback_messages_get lang ≠ "" ∧
      error_messages_get lang ≠ "" ∧ get_speech_hints lang ≠ "" ∧
      get_twilio_language lang ≠ "" ∧ get_sarvam_language_code lang ≠ "" ∧
      ∀ dv, get_voice_for_language dv lang = "meera") := by
  simp only [List.mem_cons, List.not_mem_nil, or_false, not_or] at h
  obtain ⟨h1, h2, h3, h4⟩ := h
  constructor
  · refine ⟨?_, ?_, ?_, ?_, ?_, ?_, ?_⟩ <;>
      simp [greetings_get, fallback_messages_get, error_messages_get,
        get_twilio_language, get_sarvam_language_code, get_speech_hints,
        get_voice_for_language, h1, h2, h3, h4]
  · intro lang hlang
    simp only [List.mem_cons, List.not_mem_nil, or_false] at hlang
    rcases hlang with h | h | h | h <;> subst h <;>
      refine ⟨?_, ?_, ?_, ?_, ?_, ?_, fun dv => rfl⟩ <;> decide

/-- Claim C4, witness: applied at the unsupported tag `"fr"`. -/
theorem C4_resolution_witness :
    greetings_get "fr" = greetings_get "en" ∧
    get_sarvam_language_code "fr" = "hi-IN" :=
  ⟨(C4_resolution "fr" (by decide)).1.1,
   (C4_resolution "fr" (by decide)).1.2.2.2.2.1⟩

/-- Claim C5: a speech-turn event whose call id has no stored session leaves
the session store untouched and answers with the error-and-hangup markup (the
localized error text said in the mapped locale, then hangup); the result does
not depend on the Rasa server, so the conversation engine is not contacted. -/
theorem C5_unknown_session (env : Env) (sessions : Sessions)
    (call_sid : String) (speech_result_field : Option String)
    (h : dictLookup sessions call_sid = none) :
    process_speech env sessions call_sid speech_result_field =
      (sessions,
       [TwiMLVerb.say (error_messages_get "hi") (get_twilio_language "hi"),
        TwiMLVerb.hangup]) := by
  simp [process_speech, h, generate_error_response]

/-- Claim C5, witness: a turn for `"CAX"` against the empty store. -/
theorem C5_unknown_session_witness :
    dictLookup ([] : Sessions) "CAX" = none ∧
    process_speech env0 [] "CAX" (some "hello") =
      ([],
       [TwiMLVerb.say (error_messages_get "hi") (get_twilio_language "hi"),
        TwiMLVerb.hangup]) :=
  ⟨rfl, C5_unknown_session env0 [] "CAX" (some "hello") rfl⟩

/-- Claim C6: for a status-callback event — a terminal status {completed,
failed, busy, no-answer} leaves no session for the call id (deleting it when
present; lookup afterwards yields `none`, the model of `SessionNotFound`); a
terminal status for an unknown call id leaves the store exactly as it was (a
no-op, not an error); a non-terminal status leaves the store unchanged; and
every status event is answered with the JSON acknowledgment
`{'status': 'received'}` and code 200, never a TwiML document. -/
theorem C6_status_callback :
    (∀ (sessions : Sessions) (call_sid status : String),
      status ∈ terminal_statuses →
      dictLookup (call_status sessions call_sid status).1 call_sid = none) ∧
    (∀ (sessions : Sessions) (call_sid status : String),
      status ∈ terminal_statuses → dictLookup sessions call_sid = none →
      (call_status sessions call_sid status).1 = sessions) ∧
    (∀ (sessions : Sessions) (call_sid status : String),
      status ∉ terminal_statuses →
      (call_status sessions call_sid status).1 = sessions) ∧
    (∀ (sessions : Sessions) (call_sid status : String),
      (call_status sessions call_sid status).2 =
        ([("status", "received")], 200)) := by
  refine ⟨?_, ?_, ?_, ?_⟩
  · intro sessions call_sid status h
    cases hm : dictLookup sessions call_sid with
    | none => simp [call_status, h, hm]
    | some v => simp [call_status, h, hm, dictLookup_dictDel_self]
  · intro sessions call_sid status h hnone
    simp [call_status, h, hnone]
  · intro sessions call_sid status h
    simp [call_status, h]
  · intro sessions call_sid status
    simp [call_status]

/-- Claim C6, witness: a `"completed"` callback removes `"CA1"` from the
one-entry store, and a non-terminal `"ringing"` callback leaves it alone. -/
theorem C6_status_callback_witness :
    dictLookup (call_status store0 "CA1" "completed").1 "CA1" = none ∧
    (call_status store0 "CA1" "ringing").1 = store0 ∧
    (call_status store0 "CA1" "completed").2 = ([("status", "received")], 200) :=
  ⟨C6_status_callback.1 store0 "CA1" "completed" (by decide),
   C6_status_callback.2.2.1 store0 "CA1" "ringing" (by decide),
   C6_status_callback.2.2.2 store0 "CA1" "completed"⟩

/-- Claim C7: a successful speech turn on an existing session stores back a
session whose history is the old history with exactly the new
(utterance, reply) pair appended at the end — prior pairs and their order
untouched, length one greater — with `from_number` and `language` unchanged;
sessions under other call ids are untouched. -/
theorem C7_append_turn (env : Env) (sessions : Sessions) (call_sid : String)
    (speech_result_field : Option String) (sess : Session)
    (h : dictLookup sessions call_sid = some sess) :
    dictLookup (process_speech env sessions call_sid speech_result_field).1
        call_sid =
      some ⟨sess.from_number, sess.language,
        sess.conversation_history ++
          [(speech_result_field.getD "",
            send_message env.rasaServer call_sid (speech_result_field.getD "")
              sess.language sess.conversation_history)]⟩ ∧
    ((dictLookup (process_speech env sessions call_sid speech_result_field).1
        call_sid).map fun s2 => s2.conversation_history.length) =
      some (sess.conversation_history.length + 1) ∧
    ∀ k, k ≠ call_sid →
      dictLookup (process_speech env sessions call_sid speech_result_field).1 k =
        dictLookup sessions k := by
  have h1 : (process_speech env sessions call_sid speech_result_field).1 =
      dictSet sessions call_sid
        ⟨sess.from_number, sess.language,
         sess.conversation_history ++
           [(speech_result_field.getD "",
             send_message env.rasaServer call_sid (speech_result_field.getD "")
               sess.language sess.conversation_history)]⟩ := by
    simp [process_speech, h]
  refine ⟨?_, ?_, ?_⟩
  · rw [h1]
    exact dictLookup_dictSet_self sessions call_sid _
  · rw [h1, dictLookup_dictSet_self]
    simp
  · intro k hk
    rw [h1]
    exact dictLookup_dictSet_other sessions call_sid k _ hk

/-- Claim C7, witness: a turn on the one-entry store appends the fallback
reply pair after the existing `("hello", "Hi there")` pair. -/
theorem C7_append_turn_witness :
    dictLookup store0 "CA1" = some sess0 ∧
    dictLookup (process_speech env0 store0 "CA1" (some "how are you")).1 "CA1" =
      some ⟨sess0.from_number, sess0.language,
        sess0.conversation_history ++
          [("how are you",
            send_message env0.rasaServer "CA1" "how are you" sess0.language
              sess0.conversation_history)]⟩ :=
  ⟨rfl, (C7_append_turn env0 store0 "CA1" (some "how are you") sess0 rfl).1⟩

/-- Claim C8: when the engine answers 200 with a non-empty fragment list, the
reply is the fragments' text fields in list order, joined by single spaces
(fragments lacking a text field contribute nothing). -/
theorem C8_join_fragments (sender_id message language : String)
    (history : List (String × String)) (body : List Fragment)
    (h : body ≠ []) :
    send_message (fun _ => RasaOutcome.response 200 body) sender_id message
        language history =
      String.intercalate " " (body.filterMap Fragment.text) := by
  simp [send_message, handle_rasa_outcome, h]

/-- Claim C8, witness: two text fragments around a text-less one join to
`"Hello there"`. -/
theorem C8_join_fragments_witness :
    ([⟨some "Hello"⟩, ⟨none⟩, ⟨some "there"⟩] : List Fragment) ≠ [] ∧
    send_message
        (fun _ => RasaOutcome.response 200 [⟨some "Hello"⟩, ⟨none⟩, ⟨some "there"⟩])
        "CA1" "hi" "en" [] =
      String.intercalate " "
        (([⟨some "Hello"⟩, ⟨none⟩, ⟨some "there"⟩] : List Fragment).filterMap
          Fragment.text) :=
  ⟨by decide,
   C8_join_fragments "CA1" "hi" "en" []
     [⟨some "Hello"⟩, ⟨none⟩, ⟨some "there"⟩] (by decide)⟩

/-- Claim C9, counterexample: the health response's keys are `status`,
`rasa_status` and `twilio_status` — not the claimed `status`, `nlu_status`
and `tts_status`. -/
theorem C9_counterexample :
    (health (some 200)).1.map Prod.fst =
      ["status", "rasa_status", "twilio_status"] ∧
    (health (some 200)).1.map Prod.fst ≠
      ["status", "nlu_status", "tts_status"] := by
  constructor
  · rfl
  · decide

/-- Claim C9, amended: the health response is an object with exactly the
keys `status`, `rasa_status` and `twilio_status`, carried with code 200:
`status` is the constant `"healthy"`, `rasa_status` reports the NLU
backend's health probe, and `twilio_status` is the constant `"connected"`
(the telephony provider, hardcoded) — the speech-synthesis provider's status
is not reported. -/
theorem C9_health_keys (rasa_probe : Option Nat) :
    (health rasa_probe).1.map Prod.fst =
      ["status", "rasa_status", "twilio_status"] ∧
    (health rasa_probe).1.lookup "status" = some (JVal.s "healthy") ∧
    (health rasa_probe).1.lookup "rasa_status" =
      some (JVal.b (check_health rasa_probe)) ∧
    (health rasa_probe).1.lookup "twilio_status" = some (JVal.s "connected") ∧
    (health rasa_probe).2 = 200 := by
  refine ⟨rfl, ?_, ?_, ?_, rfl⟩ <;> simp [health, List.lookup]

/-- Claim C10: a speech-turn event with no `SpeechResult` field behaves
exactly like a turn whose utterance is the empty string: on an existing
session the empty string is sent to the engine together with the session's
prior history, the pair `("", reply)` is appended, and an ordinary
listen-again reply markup is produced (no re-prompt special case, no
rejection). -/
theorem C10_empty_speech (env : Env) (sessions : Sessions) (call_sid : String)
    (sess : Session) (h : dictLookup sessions call_sid = some sess) :
    process_speech env sessions call_sid none =
      process_speech env sessions call_sid (some "") ∧
    process_speech env sessions call_sid none =
      (dictSet sessions call_sid
        ⟨sess.from_number, sess.language,
         sess.conversation_history ++
           [("", send_message env.rasaServer call_sid "" sess.language
               sess.conversation_history)]⟩,
       generate_response env.ttsCfg env.save env.ttsServer env.server_url
         (send_message env.rasaServer call_sid "" sess.language
           sess.conversation_history)
         sess.language false) := by
  constructor
  · rfl
  · simp [process_speech, h]

/-- Claim C10, witness: a no-`SpeechResult` turn on the one-entry store. -/
theorem C10_empty_speech_witness :
    dictLookup store0 "CA1" = some sess0 ∧
    process_speech env0 store0 "CA1" none =
      process_speech env0 store0 "CA1" (some "") :=
  ⟨rfl, (C10_empty_speech env0 store0 "CA1" sess0 rfl).1⟩

end VoiceBot
